import Mathlib

/-!
Shallow embedding of `data_collector.py` (class `AirQualityCollector`).

The program polls a weather/air-quality API for a fixed registry of
locations, normalizes the two JSON payloads into a flat measurement
record, and hands each record to an external storage sink, tallying
per-location success/failure.

External effects are modelled explicitly:
  - the HTTP layer is an oracle `Api : Endpoint → Rat → Rat → HttpResult`
    giving, per endpoint and coordinates, either a response (status and
    decoded JSON body), a timeout, or a transport-level error
    (`requests.exceptions.Timeout` / `RequestException` in the source);
  - the storage sink `insert_air_quality_data` is an oracle
    `MeasurementRecord → Bool` (its return value in the source);
  - the wall clock (`datetime.now(timezone.utc).isoformat()`) is an oracle
    supplying the timestamp string captured at each normalization;
  - every function additionally returns the list of observable events it
    performs (HTTP requests, sink inserts, `time.sleep` pauses), in order.

The registry `self.locations` is passed as an explicit list parameter;
the concrete value built in `__init__` is `aguachica_locations` below.
-/

/-- JSON values, as decoded from an API response body. -/
inductive Json where
  | null : Json
  | bool (b : Bool) : Json
  | num (v : Rat) : Json
  | str (s : String) : Json
  | arr (items : List Json) : Json
  | obj (fields : List (String × Json)) : Json

/-- Python `d[k]` on a decoded JSON value: `some` when the value is an
object carrying the key, otherwise `none` (KeyError / TypeError). -/
def Json.getKey : Json → String → Option Json
  | .obj fields, k => fields.lookup k
  | _, _ => none

/-- Python `x[i]` on a decoded JSON value: `some` when the value is an
array long enough, otherwise `none` (IndexError / TypeError). -/
def Json.getIdx : Json → Nat → Option Json
  | .arr items, i => items.get? i
  | _, _ => none

/-- The underlying field list when the value is an object; `none`
otherwise (a `.get` attribute access on a non-dict raises). -/
def Json.asObj : Json → Option (List (String × Json))
  | .obj fields => some fields
  | _ => none

/-- Python `d.get(k, default)`: requires `d` to be a dict, then yields the
stored value or the default. -/
def Json.getKeyD (j : Json) (k : String) (default : Json) : Option Json :=
  match j with
  | .obj fields => some ((fields.lookup k).getD default)
  | _ => none

/-- A monitoring point of the registry `self.locations`. -/
structure Location where
  id : String
  name : String
  lat : Rat
  lon : Rat
  deriving DecidableEq

/-- The two HTTP GET endpoints contacted by `get_air_quality_data`. -/
inductive Endpoint where
  | airPollution : Endpoint
  | weather : Endpoint
  deriving DecidableEq

/-- Outcome of one `requests.get` call: a response with its status code
and decoded body, a timeout, or a transport-level request error. -/
inductive HttpResult where
  | ok (status : Nat) (body : Json) : HttpResult
  | timeout : HttpResult
  | reqError (msg : String) : HttpResult

/-- The HTTP layer as an oracle: result of a GET against an endpoint at
given coordinates. -/
def Api : Type := Endpoint → Rat → Rat → HttpResult

/-- The dictionary returned by `get_air_quality_data`: `success` plus,
on success, both decoded payloads, or, on failure, an error message. -/
structure FetchResult where
  success : Bool
  air_quality : Option Json
  weather : Option Json
  error : Option String

/-- The failure dictionary `{'success': False, 'error': msg}`. -/
def FetchResult.failure (msg : String) : FetchResult :=
  { success := false, air_quality := none, weather := none, error := some msg }

/-- The flat record handed to `insert_air_quality_data` (its keyword
arguments, in source order). Optional fields come from `dict.get`. -/
structure MeasurementRecord where
  location_id : String
  location_name : String
  lat : Rat
  lon : Rat
  timestamp : String
  pm2_5 : Option Json
  pm10 : Option Json
  o3 : Option Json
  no2 : Option Json
  aqi : Json
  temp : Json
  humidity : Json
  pressure : Json
  wind_speed : Option Json

/-- Observable events of a run, in program order. -/
inductive TraceEvent where
  | request (endpoint : Endpoint) (lat lon : Rat) : TraceEvent
  | insert (record : MeasurementRecord) : TraceEvent
  | sleep (seconds : Nat) : TraceEvent

/-- Lines 65-107: `get_air_quality_data(self, lat, lon)`. Issues the
pollution GET, then the weather GET; success requires both statuses to
be 200, in which case both decoded bodies are returned. A timeout or
request exception on either call is caught and yields a failure
dictionary; when the first call raises, the second is never issued. -/
def get_air_quality_data (api : Api) (lat lon : Rat) : FetchResult × List TraceEvent :=
  match api Endpoint.airPollution lat lon with
  | HttpResult.timeout =>
      (FetchResult.failure "Timeout", [TraceEvent.request Endpoint.airPollution lat lon])
  | HttpResult.reqError msg =>
      (FetchResult.failure msg, [TraceEvent.request Endpoint.airPollution lat lon])
  | HttpResult.ok airStatus airBody =>
      match api Endpoint.weather lat lon with
      | HttpResult.timeout =>
          (FetchResult.failure "Timeout",
           [TraceEvent.request Endpoint.airPollution lat lon,
            TraceEvent.request Endpoint.weather lat lon])
      | HttpResult.reqError msg =>
          (FetchResult.failure msg,
           [TraceEvent.request Endpoint.airPollution lat lon,
            TraceEvent.request Endpoint.weather lat lon])
      | HttpResult.ok weatherStatus weatherBody =>
          if airStatus == 200 && weatherStatus == 200 then
            ({ success := true, air_quality := some airBody,
               weather := some weatherBody, error := none },
             [TraceEvent.request Endpoint.airPollution lat lon,
              TraceEvent.request Endpoint.weather lat lon])
          else
            (FetchResult.failure "API request failed",
             [TraceEvent.request Endpoint.airPollution lat lon,
              TraceEvent.request Endpoint.weather lat lon])

/-- Lines 112-144 of `process_and_save_data`: the extraction of the
record fields from the payloads, with the timestamp `now` captured from
the clock. Any failing access (KeyError, IndexError, TypeError,
AttributeError in the source) is caught by the enclosing `try` and
collapses the whole call to a failure, so it is modelled as `none`. -/
def build_record (now : String) (location : Location) (api_data : FetchResult) :
    Option MeasurementRecord :=
  api_data.air_quality.bind fun air_quality =>
  api_data.weather.bind fun weather =>
  (air_quality.getKey "list").bind fun listVal =>
  (listVal.getIdx 0).bind fun entry =>
  (entry.getKey "components").bind fun components =>
  (entry.getKey "main").bind fun mainVal =>
  (mainVal.getKey "aqi").bind fun aqi =>
  (weather.getKey "main").bind fun wmain =>
  (wmain.getKey "temp").bind fun temp =>
  (wmain.getKey "humidity").bind fun humidity =>
  (wmain.getKey "pressure").bind fun pressure =>
  (weather.getKeyD "wind" (Json.obj [])).bind fun windSection =>
  windSection.asObj.bind fun windFields =>
  components.asObj.bind fun componentFields =>
  some
    { location_id := location.id
      location_name := location.name
      lat := location.lat
      lon := location.lon
      timestamp := now
      pm2_5 := componentFields.lookup "pm2_5"
      pm10 := componentFields.lookup "pm10"
      o3 := componentFields.lookup "o3"
      no2 := componentFields.lookup "no2"
      aqi := aqi
      temp := temp
      humidity := humidity
      pressure := pressure
      wind_speed := windFields.lookup "speed" }

/-- Lines 109-155: `process_and_save_data(self, location, api_data)`.
On a successful extraction the record is handed to the sink and the
sink's boolean is returned; on any extraction error the `except` clause
returns `False` and the sink is never called. -/
def process_and_save_data (sink : MeasurementRecord → Bool) (now : String)
    (location : Location) (api_data : FetchResult) : Bool × List TraceEvent :=
  match build_record now location api_data with
  | none => (false, [])
  | some record => (sink record, [TraceEvent.insert record])

/-- The loop body accumulator of `collect_all_locations`: `i` indexes the
clock (one timestamp capture per location), `successful` and `failed`
are the running tallies. After each location, successful or not, the
loop sleeps 2 seconds. -/
def collect_all_go (api : Api) (sink : MeasurementRecord → Bool) (clock : Nat → String) :
    List Location → Nat → Nat → Nat → (Nat × Nat) × List TraceEvent
  | [], _, successful, failed => ((successful, failed), [])
  | location :: rest, i, successful, failed =>
    let fetched := get_air_quality_data api location.lat location.lon
    let step :=
      if fetched.1.success then
        let processed := process_and_save_data sink (clock i) location fetched.1
        (processed.1, fetched.2 ++ processed.2)
      else
        (false, fetched.2)
    let tail := collect_all_go api sink clock rest (i + 1)
        (if step.1 then successful + 1 else successful)
        (if step.1 then failed else failed + 1)
    (tail.1, step.2 ++ [TraceEvent.sleep 2] ++ tail.2)

/-- Lines 157-188: `collect_all_locations(self)`. Iterates the registry
in order, classifying each location as a success (fetch succeeded AND
processing/storing succeeded) or a failure, and returns the tally
`(successful, failed)`. -/
def collect_all_locations (api : Api) (sink : MeasurementRecord → Bool)
    (clock : Nat → String) (locations : List Location) : (Nat × Nat) × List TraceEvent :=
  collect_all_go api sink clock locations 0 0 0

/-- Lines 190-206: `collect_single_location(self, location_id)`. Looks
the id up in the registry; on no match returns `False` at once, on a
match runs the same fetch-then-process pipeline (with no sleep) and
returns its boolean. -/
def collect_single_location (api : Api) (sink : MeasurementRecord → Bool) (now : String)
    (locations : List Location) (location_id : String) : Bool × List TraceEvent :=
  match locations.find? (fun location => location.id == location_id) with
  | none => (false, [])
  | some location =>
    let fetched := get_air_quality_data api location.lat location.lon
    if fetched.1.success then
      let processed := process_and_save_data sink now location fetched.1
      (processed.1, fetched.2 ++ processed.2)
    else
      (false, fetched.2)

/-- The concrete registry built in `__init__` (lines 14-63), decimal
coordinates read as exact rationals. -/
def aguachica_locations : List Location :=
  [ { id := "aguachica_general", name := "Aguachica - Vista General",
      lat := 8.312, lon := -73.626 },
    { id := "parque_central", name := "Parque Central",
      lat := 8.310675833008426, lon := -73.62363665855918 },
    { id := "universidad", name := "Universidad Popular del Cesar",
      lat := 8.314789098234467, lon := -73.59638568793966 },
    { id := "parque_morrocoy", name := "Parque Morrocoy",
      lat := 8.310373774726447, lon := -73.61670782048647 },
    { id := "patinodromo", name := "Patinódromo",
      lat := 8.297149888853758, lon := -73.62335200184627 },
    { id := "ciudadela_paz", name := "Ciudadela de la Paz",
      lat := 8.312099985681844, lon := -73.63467832511535 },
    { id := "bosque", name := "Bosque",
      lat := 8.312303609676293, lon := -73.61448867800057 },
    { id := "estadio", name := "Estadio",
      lat := 8.30159931733102, lon := -73.622763654179 } ]

/-- The classification of one location inside `collect_all_locations`
(lines 170-178): fetch succeeded AND processing/storing succeeded. -/
def location_outcome (api : Api) (sink : MeasurementRecord → Bool) (now : String)
    (location : Location) : Bool :=
  let api_data := (get_air_quality_data api location.lat location.lon).1
  api_data.success && (process_and_save_data sink now location api_data).1

/-- The per-location outcomes of a run over a registry suffix, the clock
indexed from `i`: one boolean per location, in registry order. -/
def run_outcomes (api : Api) (sink : MeasurementRecord → Bool) (clock : Nat → String) :
    List Location → Nat → List Bool
  | [], _ => []
  | location :: rest, i =>
      location_outcome api sink (clock i) location :: run_outcomes api sink clock rest (i + 1)

/-- The records handed to the sink along a trace, in order. -/
def inserted_records (trace : List TraceEvent) : List MeasurementRecord :=
  trace.filterMap fun event =>
    match event with
    | TraceEvent.insert record => some record
    | _ => none

/-- The location ids of the records handed to the sink along a trace. -/
def inserted_ids (trace : List TraceEvent) : List String :=
  (inserted_records trace).map MeasurementRecord.location_id

/-- The record a run attempts to store for one location, if any: present
exactly when the fetch succeeded and extraction succeeded. -/
def attempted_record (api : Api) (now : String) (location : Location) :
    Option MeasurementRecord :=
  let api_data := (get_air_quality_data api location.lat location.lon).1
  if api_data.success then build_record now location api_data else none

/-- The records a run attempts to store over a registry suffix, the
clock indexed from `i`. -/
def attempted_records (api : Api) (clock : Nat → String) :
    List Location → Nat → List MeasurementRecord
  | [], _ => []
  | location :: rest, i =>
      match attempted_record api (clock i) location with
      | some record => record :: attempted_records api clock rest (i + 1)
      | none => attempted_records api clock rest (i + 1)

/-- A record with its timestamp blanked, to compare normalization
outputs up to the captured clock value. -/
def erase_timestamp (record : MeasurementRecord) : MeasurementRecord :=
  { record with timestamp := "" }

/-- A pollution payload with every component and the index present. -/
def complete_air_body : Json :=
  Json.obj [("list", Json.arr
    [Json.obj [("components", Json.obj
        [("pm2_5", Json.num 12), ("pm10", Json.num 20),
         ("o3", Json.num 30), ("no2", Json.num 8)]),
      ("main", Json.obj [("aqi", Json.num 2)])]])]

/-- A weather payload with all required fields and wind data present. -/
def complete_weather_body : Json :=
  Json.obj [("main", Json.obj
      [("temp", Json.num 28), ("humidity", Json.num 70), ("pressure", Json.num 1010)]),
    ("wind", Json.obj [("speed", Json.num 3)])]

/-- An HTTP layer answering every request with status 200 and a complete
payload for its endpoint. -/
def complete_api : Api := fun endpoint _ _ =>
  match endpoint with
  | Endpoint.airPollution => HttpResult.ok 200 complete_air_body
  | Endpoint.weather => HttpResult.ok 200 complete_weather_body

/-- An HTTP layer timing out on every request. -/
def timeout_api : Api := fun _ _ _ => HttpResult.timeout

/-- A storage sink accepting every write. -/
def accepting_sink : MeasurementRecord → Bool := fun _ => true

/-- A pollution payload whose first entry has the index present and the
components dictionary lacking pm2_5. -/
def sparse_air_body : Json :=
  Json.obj [("list", Json.arr
    [Json.obj [("components", Json.obj
        [("pm10", Json.num 20), ("o3", Json.num 30), ("no2", Json.num 8)]),
      ("main", Json.obj [("aqi", Json.num 2)])]])]

/-- A successful fetch result pairing the sparse pollution payload with
an empty weather payload. -/
def sparse_fetch_result : FetchResult :=
  { success := true, air_quality := some sparse_air_body,
    weather := some (Json.obj []), error := none }

/-- A throwaway location for concrete runs. -/
def loc_a : Location := { id := "a", name := "A", lat := 1, lon := 2 }

/-- A second throwaway location, with a distinct id. -/
def loc_b : Location := { id := "b", name := "B", lat := 3, lon := 4 }

/-- A successful fetch result whose pollution payload's first entry has
an empty `main` dictionary, so the index field is absent. -/
def missing_aqi_fetch_result : FetchResult :=
  { success := true,
    air_quality := some (Json.obj [("list", Json.arr
      [Json.obj [("components", Json.obj []), ("main", Json.obj [])]])]),
    weather := some complete_weather_body, error := none }

/-- A successful fetch result pairing the sparse pollution payload
(index present, pm2_5 absent) with a complete weather payload. -/
def sparse_pm25_fetch_result : FetchResult :=
  { success := true, air_quality := some sparse_air_body,
    weather := some complete_weather_body, error := none }

/-- Normalization only uses the clock for the timestamp field: the record
built with clock value `now` is the record built with a blank clock,
timestamp overwritten. -/
theorem build_record_timestamp_eq (now : String) (location : Location) (api_data : FetchResult) :
    build_record now location api_data =
      (build_record "" location api_data).map (fun r => { r with timestamp := now }) := by
  unfold build_record
  cases api_data.air_quality with
  | none => rfl
  | some aq =>
  simp only [Option.bind]
  cases api_data.weather with
  | none => rfl
  | some w =>
  simp only [Option.bind]
  cases aq.getKey "list" with
  | none => rfl
  | some listVal =>
  simp only [Option.bind]
  cases listVal.getIdx 0 with
  | none => rfl
  | some entry =>
  simp only [Option.bind]
  cases entry.getKey "components" with
  | none => rfl
  | some components =>
  simp only [Option.bind]
  cases entry.getKey "main" with
  | none => rfl
  | some mainVal =>
  simp only [Option.bind]
  cases mainVal.getKey "aqi" with
  | none => rfl
  | some aqi =>
  simp only [Option.bind]
  cases w.getKey "main" with
  | none => rfl
  | some wmain =>
  simp only [Option.bind]
  cases wmain.getKey "temp" with
  | none => rfl
  | some temp =>
  simp only [Option.bind]
  cases wmain.getKey "humidity" with
  | none => rfl
  | some humidity =>
  simp only [Option.bind]
  cases wmain.getKey "pressure" with
  | none => rfl
  | some pressure =>
  simp only [Option.bind]
  cases w.getKeyD "wind" (Json.obj []) with
  | none => rfl
  | some windSection =>
  simp only [Option.bind]
  cases windSection.asObj with
  | none => rfl
  | some windFields =>
  simp only [Option.bind]
  cases components.asObj with
  | none => rfl
  | some componentFields => rfl

/-- Booleans in a list are each counted once, as a true or as a false. -/
theorem count_true_add_count_false (l : List Bool) :
    l.count true + l.count false = l.length := by
  induction l with
  | nil => rfl
  | cons b rest ih => cases b <;> simp [List.count_cons] <;> omega

/-- A run produces one outcome per registry entry. -/
theorem run_outcomes_length (api : Api) (sink : MeasurementRecord → Bool)
    (clock : Nat → String) (locs : List Location) :
    ∀ i : Nat, (run_outcomes api sink clock locs i).length = locs.length := by
  induction locs with
  | nil => intro i; rfl
  | cons loc rest ih => intro i; simp [run_outcomes, ih]

/-- The loop accumulator adds the counts of true and false per-location
outcomes to the running tallies. -/
theorem collect_all_go_tally (api : Api) (sink : MeasurementRecord → Bool)
    (clock : Nat → String) (locs : List Location) :
    ∀ i s f : Nat,
      (collect_all_go api sink clock locs i s f).1 =
        (s + (run_outcomes api sink clock locs i).count true,
         f + (run_outcomes api sink clock locs i).count false) := by
  induction locs with
  | nil => intro i s f; rfl
  | cons loc rest ih =>
    intro i s f
    simp only [collect_all_go, run_outcomes]
    cases hs : (get_air_quality_data api loc.lat loc.lon).1.success with
    | false =>
      simp only [hs, if_false, Bool.false_eq_true]
      rw [ih]
      simp [location_outcome, hs, List.count_cons]
      omega
    | true =>
      cases hp : (process_and_save_data sink (clock i) loc
          (get_air_quality_data api loc.lat loc.lon).1).1 with
      | false =>
        simp only [hs, if_true]
        rw [ih]
        simp [location_outcome, hs, hp, List.count_cons]
        omega
      | true =>
        simp only [hs, if_true]
        rw [ih]
        simp [location_outcome, hs, hp, List.count_cons]
        omega

/-- The API client performs no sink insert. -/
theorem fetch_trace_inserts (api : Api) (lat lon : Rat) :
    inserted_records (get_air_quality_data api lat lon).2 = [] := by
  unfold get_air_quality_data
  cases api Endpoint.airPollution lat lon with
  | timeout => rfl
  | reqError msg => rfl
  | ok airStatus airBody =>
    cases api Endpoint.weather lat lon with
    | timeout => rfl
    | reqError msg => rfl
    | ok weatherStatus weatherBody =>
      by_cases h : (airStatus == 200 && weatherStatus == 200) = true
      · simp [h, inserted_records]
      · simp [h, inserted_records]

/-- Insert extraction distributes over trace concatenation. -/
theorem inserted_records_append (t1 t2 : List TraceEvent) :
    inserted_records (t1 ++ t2) = inserted_records t1 ++ inserted_records t2 := by
  simp [inserted_records]

/-- A sleep event carries no insert. -/
theorem inserted_records_sleep (n : Nat) :
    inserted_records [TraceEvent.sleep n] = [] := rfl

/-- The inserts of a whole run are exactly the per-location attempted
records, in registry order. -/
theorem collect_all_go_inserts (api : Api) (sink : MeasurementRecord → Bool)
    (clock : Nat → String) (locs : List Location) :
    ∀ i s f : Nat,
      inserted_records (collect_all_go api sink clock locs i s f).2 =
        attempted_records api clock locs i := by
  induction locs with
  | nil => intro i s f; rfl
  | cons loc rest ih =>
    intro i s f
    simp only [collect_all_go, attempted_records, attempted_record]
    cases hs : (get_air_quality_data api loc.lat loc.lon).1.success with
    | false =>
      simp only [hs, Bool.false_eq_true, if_false, inserted_records_append,
        fetch_trace_inserts, inserted_records_sleep, ih, List.nil_append, List.append_nil]
    | true =>
      simp only [hs, if_true]
      cases hb : build_record (clock i) loc (get_air_quality_data api loc.lat loc.lon).1 with
      | none =>
        simp only [process_and_save_data, hb, inserted_records_append,
          fetch_trace_inserts, inserted_records_sleep, ih, List.nil_append, List.append_nil]
      | some record =>
        simp only [process_and_save_data, hb, inserted_records_append,
          fetch_trace_inserts, inserted_records_sleep, ih, List.nil_append, List.append_nil]
        rfl

/-- At most one record is attempted per registry entry. -/
theorem attempted_records_length_le (api : Api) (clock : Nat → String)
    (locs : List Location) :
    ∀ i : Nat, (attempted_records api clock locs i).length ≤ locs.length := by
  induction locs with
  | nil => intro i; simp [attempted_records]
  | cons loc rest ih =>
    intro i
    simp only [attempted_records]
    cases attempted_record api (clock i) loc with
    | none =>
      simp only [List.length_cons]
      exact Nat.le_succ_of_le (ih (i + 1))
    | some record =>
      simp only [List.length_cons]
      exact Nat.succ_le_succ (ih (i + 1))

/-- When the index field is absent from the first pollution entry, the
extraction fails. -/
theorem build_record_none_of_aqi_none (now : String) (location : Location)
    (api_data : FetchResult) (aq listVal entry : Json)
    (hair : api_data.air_quality = some aq)
    (hlist : aq.getKey "list" = some listVal)
    (hentry : listVal.getIdx 0 = some entry)
    (haqi : (entry.getKey "main").bind (fun m => m.getKey "aqi") = none) :
    build_record now location api_data = none := by
  unfold build_record
  rw [hair]
  simp only [Option.bind]
  cases api_data.weather with
  | none => rfl
  | some w =>
  simp only [Option.bind]
  rw [hlist]
  simp only [Option.bind]
  rw [hentry]
  simp only [Option.bind]
  cases entry.getKey "components" with
  | none => rfl
  | some components =>
  simp only [Option.bind]
  cases hm : entry.getKey "main" with
  | none => rfl
  | some mainVal =>
    rw [hm] at haqi
    simp only [Option.bind] at haqi
    simp only [Option.bind, haqi]

/-- The API client never sleeps. -/
theorem fetch_trace_no_sleep (api : Api) (lat lon : Rat) (n : Nat) :
    TraceEvent.sleep n ∉ (get_air_quality_data api lat lon).2 := by
  unfold get_air_quality_data
  cases api Endpoint.airPollution lat lon with
  | timeout => simp
  | reqError msg => simp
  | ok airStatus airBody =>
    cases api Endpoint.weather lat lon with
    | timeout => simp
    | reqError msg => simp
    | ok weatherStatus weatherBody =>
      by_cases h : (airStatus == 200 && weatherStatus == 200) = true
      · simp [h]
      · simp [h]

/-- Claim C1: over any registry and any API, sink and clock behaviour,
the pair returned by `collect_all_locations` satisfies
successCount + failureCount = number of locations in the registry. -/
theorem claim_C1_tally_partition (api : Api) (sink : MeasurementRecord → Bool)
    (clock : Nat → String) (locations : List Location) :
    (collect_all_locations api sink clock locations).1.1 +
      (collect_all_locations api sink clock locations).1.2 = locations.length := by
  have h2 := count_true_add_count_false (run_outcomes api sink clock locations 0)
  have h3 := run_outcomes_length api sink clock locations 0
  unfold collect_all_locations
  rw [collect_all_go_tally]
  dsimp only
  omega

/-- Claim C3: for every behaviour of the API and the sink, the run
completes with one boolean outcome per location, the success count is
the number of true outcomes and the failure count the number of false
outcomes; no error escapes the iteration. -/
theorem claim_C3_failure_isolation (api : Api) (sink : MeasurementRecord → Bool)
    (clock : Nat → String) (locations : List Location) :
    (collect_all_locations api sink clock locations).1 =
      ((run_outcomes api sink clock locations 0).count true,
       (run_outcomes api sink clock locations 0).count false) ∧
    (run_outcomes api sink clock locations 0).length = locations.length := by
  refine ⟨?_, run_outcomes_length api sink clock locations 0⟩
  unfold collect_all_locations
  rw [collect_all_go_tally]
  simp

/-- Claim C2: the fetch reports success, carrying exactly the two decoded
bodies, if and only if both calls returned status 200; in every other
case it reports failure with an error message and carries no payload. -/
theorem claim_C2_fetch_success_iff (api : Api) (lat lon : Rat) :
    ((get_air_quality_data api lat lon).1.success = true ↔
      ∃ airBody weatherBody,
        api Endpoint.airPollution lat lon = HttpResult.ok 200 airBody ∧
        api Endpoint.weather lat lon = HttpResult.ok 200 weatherBody ∧
        (get_air_quality_data api lat lon).1 =
          { success := true, air_quality := some airBody,
            weather := some weatherBody, error := none }) ∧
    ((get_air_quality_data api lat lon).1.success = false →
      (get_air_quality_data api lat lon).1.air_quality = none ∧
      (get_air_quality_data api lat lon).1.weather = none ∧
      ∃ msg, (get_air_quality_data api lat lon).1.error = some msg) := by
  unfold get_air_quality_data
  cases hair : api Endpoint.airPollution lat lon with
  | timeout => simp [FetchResult.failure]
  | reqError msg => simp [FetchResult.failure]
  | ok airStatus airBody =>
    cases hw : api Endpoint.weather lat lon with
    | timeout => simp [FetchResult.failure]
    | reqError msg => simp [FetchResult.failure]
    | ok weatherStatus weatherBody =>
      by_cases h1 : airStatus = 200
      · by_cases h2 : weatherStatus = 200
        · subst h1; subst h2; simp
        · have hb : (airStatus == 200 && weatherStatus == 200) = true ↔ False := by
            simp [h2]
          simp [hb, FetchResult.failure, h2]
      · have hb : (airStatus == 200 && weatherStatus == 200) = true ↔ False := by
          simp [h1]
        simp [hb, FetchResult.failure, h1]

/-- Claim C2 witness: with both endpoints answering 200 and complete
payloads, the fetch reports success. -/
theorem claim_C2_witness :
    (get_air_quality_data complete_api 1 2).1.success = true :=
  ((claim_C2_fetch_success_iff complete_api 1 2).1).mpr
    ⟨complete_air_body, complete_weather_body, rfl, rfl, rfl⟩

/-- Claim C4: on a registry of two locations with distinct ids, an API
answering every call with 200 and complete payloads, and a sink
accepting every write, the run returns (2, 0) and the sink is handed
exactly two records whose location ids are the registry ids, distinct. -/
theorem claim_C4_end_to_end (l1 l2 : Location) (clock : Nat → String)
    (h : l1.id ≠ l2.id) :
    (collect_all_locations complete_api accepting_sink clock [l1, l2]).1 = (2, 0) ∧
    inserted_ids (collect_all_locations complete_api accepting_sink clock [l1, l2]).2 =
      [l1.id, l2.id] ∧
    (inserted_ids (collect_all_locations complete_api accepting_sink clock [l1, l2]).2).Nodup := by
  have hids : inserted_ids
      (collect_all_locations complete_api accepting_sink clock [l1, l2]).2 = [l1.id, l2.id] := rfl
  refine ⟨rfl, hids, ?_⟩
  rw [hids]
  simp [h]

/-- Claim C4 witness: the scenario at two concrete locations. -/
theorem claim_C4_witness :
    (collect_all_locations complete_api accepting_sink (fun _ => "t") [loc_a, loc_b]).1 = (2, 0) ∧
    inserted_ids (collect_all_locations complete_api accepting_sink (fun _ => "t") [loc_a, loc_b]).2 =
      [loc_a.id, loc_b.id] ∧
    (inserted_ids (collect_all_locations complete_api accepting_sink (fun _ => "t") [loc_a, loc_b]).2).Nodup :=
  claim_C4_end_to_end loc_a loc_b (fun _ => "t") (by decide)

/-- Claim C5: a successful fetch result whose first pollution entry
lacks the index field makes processing fail, with no sink insert. -/
theorem claim_C5_missing_index (sink : MeasurementRecord → Bool) (now : String)
    (location : Location) (api_data : FetchResult) (aq listVal entry : Json)
    (_hsuccess : api_data.success = true)
    (hair : api_data.air_quality = some aq)
    (hlist : aq.getKey "list" = some listVal)
    (hentry : listVal.getIdx 0 = some entry)
    (haqi : (entry.getKey "main").bind (fun m => m.getKey "aqi") = none) :
    process_and_save_data sink now location api_data = (false, []) := by
  unfold process_and_save_data
  rw [build_record_none_of_aqi_none now location api_data aq listVal entry hair hlist hentry haqi]

/-- Claim C5 witness: the failure at a concrete payload with an empty
index dictionary. -/
theorem claim_C5_witness :
    process_and_save_data accepting_sink "t" loc_a missing_aqi_fetch_result = (false, []) :=
  claim_C5_missing_index accepting_sink "t" loc_a missing_aqi_fetch_result
    (Json.obj [("list", Json.arr [Json.obj [("components", Json.obj []), ("main", Json.obj [])]])])
    (Json.arr [Json.obj [("components", Json.obj []), ("main", Json.obj [])]])
    (Json.obj [("components", Json.obj []), ("main", Json.obj [])])
    rfl rfl rfl rfl rfl

/-- Claim C6 counterexample: a successful fetch result whose first
pollution entry has the index present (value 2) and pm2_5 absent, yet
normalization fails, because the weather payload lacks its required
fields — the claim quantifies over every such successful fetch result. -/
theorem claim_C6_counterexample :
    sparse_fetch_result.success = true ∧
    ((((sparse_fetch_result.air_quality.bind (fun aq => aq.getKey "list")).bind
        (fun l => l.getIdx 0)).bind (fun e => e.getKey "main")).bind
        (fun m => m.getKey "aqi")) = some (Json.num 2) ∧
    ((((sparse_fetch_result.air_quality.bind (fun aq => aq.getKey "list")).bind
        (fun l => l.getIdx 0)).bind (fun e => e.getKey "components")).bind
        (fun c => c.getKey "pm2_5")) = none ∧
    build_record "t" loc_a sparse_fetch_result = none :=
  ⟨rfl, rfl, rfl, rfl⟩

/-- Claim C6 (amended): when additionally the components entry is a
dictionary, and the weather payload carries its required fields and a
well-formed wind section, normalization succeeds with pm2_5 absent, the
other components populated exactly as present in the payload, and the
required fields populated. -/
theorem claim_C6_pm25_optional (now : String) (location : Location)
    (api_data : FetchResult) (aq w listVal entry mainVal wmain : Json)
    (componentFields windFields : List (String × Json))
    (aqiVal tempVal humVal presVal : Json)
    (_hsuccess : api_data.success = true)
    (hair : api_data.air_quality = some aq)
    (hweather : api_data.weather = some w)
    (hlist : aq.getKey "list" = some listVal)
    (hentry : listVal.getIdx 0 = some entry)
    (hcomp : entry.getKey "components" = some (Json.obj componentFields))
    (hpm : componentFields.lookup "pm2_5" = none)
    (hmain : entry.getKey "main" = some mainVal)
    (haqi : mainVal.getKey "aqi" = some aqiVal)
    (hwmain : w.getKey "main" = some wmain)
    (htemp : wmain.getKey "temp" = some tempVal)
    (hhum : wmain.getKey "humidity" = some humVal)
    (hpres : wmain.getKey "pressure" = some presVal)
    (hwind : w.getKeyD "wind" (Json.obj []) = some (Json.obj windFields)) :
    build_record now location api_data = some
      { location_id := location.id
        location_name := location.name
        lat := location.lat
        lon := location.lon
        timestamp := now
        pm2_5 := none
        pm10 := componentFields.lookup "pm10"
        o3 := componentFields.lookup "o3"
        no2 := componentFields.lookup "no2"
        aqi := aqiVal
        temp := tempVal
        humidity := humVal
        pressure := presVal
        wind_speed := windFields.lookup "speed" } := by
  unfold build_record
  rw [hair]
  simp only [Option.bind]
  rw [hweather]
  simp only [Option.bind]
  rw [hlist]
  simp only [Option.bind]
  rw [hentry]
  simp only [Option.bind]
  rw [hcomp]
  simp only [Option.bind]
  rw [hmain]
  simp only [Option.bind]
  rw [haqi]
  simp only [Option.bind]
  rw [hwmain]
  simp only [Option.bind]
  rw [htemp]
  simp only [Option.bind]
  rw [hhum]
  simp only [Option.bind]
  rw [hpres]
  simp only [Option.bind]
  rw [hwind]
  simp only [Option.bind, Json.asObj]
  rw [hpm]

/-- Claim C6 witness: the sparse pollution payload with a complete
weather payload normalizes to a record with pm2_5 absent. -/
theorem claim_C6_witness :
    build_record "t" loc_a sparse_pm25_fetch_result = some
      { location_id := "a", location_name := "A", lat := 1, lon := 2, timestamp := "t",
        pm2_5 := none, pm10 := some (Json.num 20), o3 := some (Json.num 30),
        no2 := some (Json.num 8), aqi := Json.num 2, temp := Json.num 28,
        humidity := Json.num 70, pressure := Json.num 1010,
        wind_speed := some (Json.num 3) } :=
  claim_C6_pm25_optional "t" loc_a sparse_pm25_fetch_result _ _ _ _ _ _ _ _ _ _ _ _
    rfl rfl rfl rfl rfl rfl rfl rfl rfl rfl rfl rfl rfl rfl

/-- Claim C7: an unknown id returns false at once with an empty trace
(no network call); a known id runs the fetch-normalize-store pipeline,
returns its outcome, and never sleeps. -/
theorem claim_C7_collect_single (api : Api) (sink : MeasurementRecord → Bool)
    (now : String) (locations : List Location) (location_id : String) :
    (locations.find? (fun location => location.id == location_id) = none →
      collect_single_location api sink now locations location_id = (false, [])) ∧
    (∀ location,
      locations.find? (fun location => location.id == location_id) = some location →
      (collect_single_location api sink now locations location_id).1 =
        location_outcome api sink now location ∧
      ∀ n, TraceEvent.sleep n ∉ (collect_single_location api sink now locations location_id).2) := by
  constructor
  · intro h
    unfold collect_single_location
    rw [h]
  · intro location h
    unfold collect_single_location location_outcome
    rw [h]
    cases hs : (get_air_quality_data api location.lat location.lon).1.success with
    | false =>
      simp only [hs, Bool.false_and, if_false, Bool.false_eq_true]
      exact ⟨trivial, fun n => fetch_trace_no_sleep api location.lat location.lon n⟩
    | true =>
      simp only [hs, Bool.true_and, if_true]
      refine ⟨trivial, fun n hmem => ?_⟩
      rcases List.mem_append.mp hmem with hm | hm
      · exact fetch_trace_no_sleep api location.lat location.lon n hm
      · revert hm
        unfold process_and_save_data
        cases build_record now location (get_air_quality_data api location.lat location.lon).1 with
        | none => simp
        | some record => simp

/-- Claim C7 witness: an unknown id against the concrete registry. -/
theorem claim_C7_witness :
    collect_single_location complete_api accepting_sink "t" aguachica_locations "nowhere" =
      (false, []) :=
  (claim_C7_collect_single complete_api accepting_sink "t" aguachica_locations "nowhere").1 rfl

/-- Claim C8 counterexample: a one-location run whose fetch times out
attempts no record at all, refuting that exactly one record is attempted
per location regardless of the fetch outcome. -/
theorem claim_C8_counterexample :
    [loc_a].length = 1 ∧
    inserted_records
      (collect_all_locations timeout_api accepting_sink (fun _ => "t") [loc_a]).2 = [] ∧
    (collect_all_locations timeout_api accepting_sink (fun _ => "t") [loc_a]).1 = (0, 1) :=
  ⟨rfl, rfl, rfl⟩

/-- Claim C8 (amended): the records handed to the sink in a run are
exactly the per-location attempted records — one when the location's
fetch succeeded and its payload normalized, none otherwise — so at most
one record is attempted per registry entry. -/
theorem claim_C8_insert_attempts (api : Api) (sink : MeasurementRecord → Bool)
    (clock : Nat → String) (locations : List Location) :
    inserted_records (collect_all_locations api sink clock locations).2 =
      attempted_records api clock locations 0 ∧
    (attempted_records api clock locations 0).length ≤ locations.length := by
  exact ⟨collect_all_go_inserts api sink clock locations 0 0 0,
    attempted_records_length_le api clock locations 0⟩

/-- Claim C9: normalization is deterministic up to the timestamp, which
comes from the clock at normalization time, not from the payloads. -/
theorem claim_C9_normalize_deterministic (location : Location) (api_data : FetchResult)
    (now1 now2 : String) :
    (build_record now1 location api_data).map erase_timestamp =
      (build_record now2 location api_data).map erase_timestamp ∧
    ∀ record, build_record now1 location api_data = some record →
      record.timestamp = now1 := by
  constructor
  · rw [build_record_timestamp_eq now1, build_record_timestamp_eq now2]
    cases build_record "" location api_data with
    | none => rfl
    | some record => rfl
  · intro record h
    rw [build_record_timestamp_eq now1] at h
    cases hb : build_record "" location api_data with
    | none =>
      rw [hb] at h
      simp only [Option.map] at h
      exact Option.noConfusion h
    | some base =>
      rw [hb] at h
      simp only [Option.map] at h
      injection h with h2
      rw [← h2]

/-- Claim C9 witness: the timestamp of a concrete normalized record is
the clock value passed in. -/
theorem claim_C9_witness :
    ({ location_id := "a", location_name := "A", lat := 1, lon := 2, timestamp := "t1",
       pm2_5 := none, pm10 := some (Json.num 20), o3 := some (Json.num 30),
       no2 := some (Json.num 8), aqi := Json.num 2, temp := Json.num 28,
       humidity := Json.num 70, pressure := Json.num 1010,
       wind_speed := some (Json.num 3) } : MeasurementRecord).timestamp = "t1" :=
  (claim_C9_normalize_deterministic loc_a sparse_pm25_fetch_result "t1" "t2").2 _ rfl

/-- Claim C10: the trace of a fetch is always the pollution request
alone or the pollution request followed by the weather request; when the
pollution call times out or raises, the weather endpoint is never
contacted and the fetch fails. -/
theorem claim_C10_sequential_requests (api : Api) (lat lon : Rat) :
    ((get_air_quality_data api lat lon).2 =
        [TraceEvent.request Endpoint.airPollution lat lon] ∨
      (get_air_quality_data api lat lon).2 =
        [TraceEvent.request Endpoint.airPollution lat lon,
         TraceEvent.request Endpoint.weather lat lon]) ∧
    ((api Endpoint.airPollution lat lon = HttpResult.timeout ∨
        (∃ msg, api Endpoint.airPollution lat lon = HttpResult.reqError msg)) →
      (get_air_quality_data api lat lon).2 =
        [TraceEvent.request Endpoint.airPollution lat lon] ∧
      (get_air_quality_data api lat lon).1.success = false) := by
  unfold get_air_quality_data
  cases hair : api Endpoint.airPollution lat lon with
  | timeout => simp [FetchResult.failure]
  | reqError msg => simp [FetchResult.failure]
  | ok airStatus airBody =>
    cases hw : api Endpoint.weather lat lon with
    | timeout => simp [FetchResult.failure]
    | reqError msg => simp [FetchResult.failure]
    | ok weatherStatus weatherBody =>
      by_cases h : (airStatus == 200 && weatherStatus == 200) = true
      · simp [h]
      · simp [h]

/-- Claim C10 witness: an always-timing-out API yields a single-request
trace and a failed fetch. -/
theorem claim_C10_witness :
    (get_air_quality_data timeout_api 1 2).2 =
      [TraceEvent.request Endpoint.airPollution 1 2] ∧
    (get_air_quality_data timeout_api 1 2).1.success = false :=
  (claim_C10_sequential_requests timeout_api 1 2).2 (Or.inl rfl)
